import Mathlib

/-!
Verification development for the DFS repository (primary storage node
`Server/Server.py`, backup node `Backup Server/backup_server.py`, client
orchestrator `Client/client.py`).  The Python sources are shallowly embedded:
byte strings become `List Nat`, text becomes `String`, the per-connection
handlers become pure functions from an explicit store / connection input to
the list of replies the handler sends, and the two-thread lock-creation race
is embedded as an explicit interleaving step relation.
-/

/-! ### Lock table: `get_lock` (Server.py lines 18-21, backup_server.py 14-17)

The Python code is

  def get_lock(filename):
      if filename not in file_locks:
          file_locks[filename] = threading.Lock()
      return file_locks[filename]

For a single fixed filename we embed the dict entry as `table : Option Nat`
(`none` = filename absent, `some i` = lock object with identity `i`), and
fresh `threading.Lock()` objects as ids drawn from `next`.  Each thread runs
three atomic steps: (0) evaluate the membership test, (1) if it saw the key
absent, allocate a fresh lock object and store it, (2) read the dict entry
back and return it.  A schedule is a list of booleans: `true` advances
thread A one step, `false` advances thread B. -/

structure RaceState where
  table : Option Nat
  next : Nat
  pcA : Nat
  sawA : Bool
  retA : Option Nat
  pcB : Nat
  sawB : Bool
  retB : Option Nat
deriving DecidableEq

def initRace : RaceState :=
  { table := none, next := 0, pcA := 0, sawA := false, retA := none,
    pcB := 0, sawB := false, retB := none }

def raceStep (s : RaceState) (who : Bool) : RaceState :=
  if who then
    match s.pcA with
    | 0 => { s with sawA := s.table.isNone, pcA := 1 }
    | 1 =>
      if s.sawA then
        { s with table := some s.next, next := s.next + 1, pcA := 2 }
      else
        { s with pcA := 2 }
    | 2 => { s with retA := s.table, pcA := 3 }
    | _ => s
  else
    match s.pcB with
    | 0 => { s with sawB := s.table.isNone, pcB := 1 }
    | 1 =>
      if s.sawB then
        { s with table := some s.next, next := s.next + 1, pcB := 2 }
      else
        { s with pcB := 2 }
    | 2 => { s with retB := s.table, pcB := 3 }
    | _ => s

def raceRun (sched : List Bool) : RaceState :=
  sched.foldl raceStep initRace

/-- The interleaving in which both threads evaluate the membership test before
either inserts, and thread A returns its lock before thread B inserts. -/
def raceSched : List Bool := [true, false, true, true, false, false]

/-! ### Handler event traces for WRITE and UPLOAD (Server.py lines 92-144)

The WRITE handler (lines 92-115) performs, in source order: `get_lock`
lookup, send `READY`, the body-receive loop, `with lock:` (acquire), the file
write, release, spawning the replication thread, and the final confirmation
send.  The UPLOAD handler (lines 118-144) performs the same sequence of
actions.  Each handler touches a single filename, so events need not carry
the name. -/

inductive HEv where
  | lockLookup
  | sendReady
  | recvBody
  | acquire
  | fileWrite
  | release
  | spawnRepl
  | sendConfirm
deriving DecidableEq

def writeTrace : List HEv :=
  [HEv.lockLookup, HEv.sendReady, HEv.recvBody, HEv.acquire, HEv.fileWrite,
   HEv.release, HEv.spawnRepl, HEv.sendConfirm]

def uploadTrace : List HEv :=
  [HEv.lockLookup, HEv.sendReady, HEv.recvBody, HEv.acquire, HEv.fileWrite,
   HEv.release, HEv.spawnRepl, HEv.sendConfirm]

/-- Scans a handler trace tracking whether the per-file lock is held and
checks that every body-receive event happens while it is held. -/
def recvLockedOK : List HEv → Bool → Bool
  | [], _ => true
  | HEv.acquire :: r, _ => recvLockedOK r true
  | HEv.release :: r, _ => recvLockedOK r false
  | HEv.recvBody :: r, held => held && recvLockedOK r held
  | _ :: r, held => recvLockedOK r held

/-- Scans a handler trace tracking whether the per-file lock is held and
checks that every file-write event happens while it is held. -/
def writeLockedOK : List HEv → Bool → Bool
  | [], _ => true
  | HEv.acquire :: r, _ => writeLockedOK r true
  | HEv.release :: r, _ => writeLockedOK r false
  | HEv.fileWrite :: r, held => held && writeLockedOK r held
  | _ :: r, held => writeLockedOK r held

/-- Checks that the lock-table lookup happens before any body-receive event. -/
def lookupBeforeRecv : List HEv → Bool → Bool
  | [], _ => true
  | HEv.lockLookup :: r, _ => lookupBeforeRecv r true
  | HEv.recvBody :: r, seen => seen && lookupBeforeRecv r seen
  | _ :: r, seen => lookupBeforeRecv r seen

/-! ### Byte-stream primitives

Bodies are byte strings (`List Nat`).  The length-framed receive loop (UPLOAD
in Server.py lines 127-134, upload branch of backup_server.py lines 119-126,
REPLICATE_BINARY in backup_server.py lines 194-201, the client download loop
in client.py lines 193-200) is

  received = 0
  file_data = b""
  while received < filesize:
      chunk = client_socket.recv(min(4096, filesize - received))
      if not chunk:
          break
      file_data += chunk
      received += len(chunk)

`recv(n)` on a stream that still holds bytes returns between 1 and `n` of
them; the embedding takes the deterministic case in which it returns
`min(n, bytes left)` bytes, and returns the empty chunk once the peer has
closed (stream exhausted).  Each iteration consumes at least one byte of
`remaining`, so the loop runs at most `total` rounds; the embedding makes
that explicit with a fuel argument instantiated to `total`. -/

def recvRounds (fuel : Nat) (stream : List Nat) (remaining : Nat) : List Nat :=
  match fuel with
  | 0 => []
  | f + 1 =>
    if remaining = 0 then []
    else
      let chunk := stream.take (min 4096 remaining)
      if chunk.isEmpty then []
      else chunk ++ recvRounds f (stream.drop (min 4096 remaining)) (remaining - chunk.length)

def recvLoop (stream : List Nat) (total : Nat) : List Nat :=
  recvRounds total stream total

/-- The DOWNLOAD send loop (Server.py lines 163-168): the file is sent in
4096-byte chunks; the value is the byte stream put on the wire.  As with
`recvRounds`, each round consumes at least one byte, bounding the loop by
`data.length` rounds. -/
def sendRounds (fuel : Nat) (data : List Nat) : List Nat :=
  match fuel, data with
  | 0, _ => []
  | _, [] => []
  | f + 1, d => d.take 4096 ++ sendRounds f (d.drop 4096)

def sendChunks (data : List Nat) : List Nat :=
  sendRounds data.length data

/-- UTF-8 encoding of a `String` whose characters are Unicode scalars; for the
protocol literals used here (all ASCII) this is the byte string `.encode()`
puts on the wire. -/
def strBytes (s : String) : List Nat :=
  s.data.map Char.toNat

def eofSentinel : String := "<<EOF>>"

def sentinelBytes : List Nat := strBytes eofSentinel

/-- The sentinel-terminated text-body receive loop (Server.py lines 101-106,
backup_server.py lines 57-62, 79-84, 169-174):

  data = ""
  while True:
      chunk = client_socket.recv(4096).decode()
      if chunk == "<<EOF>>":
          break
      data += chunk

The wire traffic is modelled as the list of chunks `recv` yields, each a byte
string; a chunk equals the decoded sentinel exactly when its bytes are
`sentinelBytes`.  `none` models the case in which the sentinel never arrives
(the loop then spins on empty reads until the socket times out or blocks
forever). -/
def recvUntilSentinel : List (List Nat) → Option (List Nat)
  | [] => none
  | c :: rest =>
    if c = sentinelBytes then some []
    else (recvUntilSentinel rest).map (c ++ ·)

/-- Chunks a sentinel-framed text body puts on the wire, as sent both by the
replication sender (Server.py lines 39-40: `backup_socket.send(data.encode())`
followed by `backup_socket.send("<<EOF>>".encode())`) and by the client
WRITE/APPEND body path (client.py lines 77-78).  A send of zero bytes
produces no chunk at the receiver. -/
def sentinelFramedChunks (payload : List Nat) : List (List Nat) :=
  if payload = [] then [sentinelBytes] else [payload, sentinelBytes]

/-- The request line the replication sender transmits (Server.py line 35):
`backup_socket.send(f"REPLICATE {filename}".encode())`. -/
def replicateRequestLine (filename : String) : String :=
  "REPLICATE " ++ filename

/-! ### `bytes.decode('utf-8', errors='ignore')` re-encoded

`Server.py` line 141 replicates an uploaded binary body as
`file_data.decode('utf-8', errors='ignore')`; the bytes that later reach the
wire are the UTF-8 re-encoding of that string.  At byte level the composite
keeps every maximal well-formed UTF-8 sequence and drops the bytes of every
ill-formed prefix (Python's `ignore` handler skips the maximal subpart of an
ill-formed sequence and resumes at the next byte). -/

def utf8Cont (b : Nat) : Bool := 0x80 ≤ b && b ≤ 0xBF

/-- Worker for `utf8Ignore`.  Every recursive call consumes at least one byte
of the input, so fuel equal to the input length never runs out. -/
def utf8IgnoreF : Nat → List Nat → List Nat
  | 0, _ => []
  | _, [] => []
  | f + 1, b :: rest =>
    if b < 0x80 then b :: utf8IgnoreF f rest
    else if 0xC2 ≤ b && b ≤ 0xDF then
      match rest with
      | [] => []
      | b2 :: rest2 =>
        if utf8Cont b2 then b :: b2 :: utf8IgnoreF f rest2
        else utf8IgnoreF f rest
    else if 0xE0 ≤ b && b ≤ 0xEF then
      match rest with
      | [] => []
      | b2 :: rest2 =>
        let contLo : Nat := if b = 0xE0 then 0xA0 else 0x80
        let contHi : Nat := if b = 0xED then 0x9F else 0xBF
        if contLo ≤ b2 && b2 ≤ contHi then
          match rest2 with
          | [] => []
          | b3 :: rest3 =>
            if utf8Cont b3 then b :: b2 :: b3 :: utf8IgnoreF f rest3
            else utf8IgnoreF f rest2
        else utf8IgnoreF f rest
    else if 0xF0 ≤ b && b ≤ 0xF4 then
      match rest with
      | [] => []
      | b2 :: rest2 =>
        let contLo : Nat := if b = 0xF0 then 0x90 else 0x80
        let contHi : Nat := if b = 0xF4 then 0x8F else 0xBF
        if contLo ≤ b2 && b2 ≤ contHi then
          match rest2 with
          | [] => []
          | b3 :: rest3 =>
            if utf8Cont b3 then
              match rest3 with
              | [] => []
              | b4 :: rest4 =>
                if utf8Cont b4 then b :: b2 :: b3 :: b4 :: utf8IgnoreF f rest4
                else utf8IgnoreF f rest3
            else utf8IgnoreF f rest2
        else utf8IgnoreF f rest
    else utf8IgnoreF f rest

def utf8Ignore (bs : List Nat) : List Nat :=
  utf8IgnoreF bs.length bs

/-! ### String utilities mirroring the Python primitives -/

/-- Worker for `strStartsWith`: is the first list an initial segment of the
second? -/
def listStarts : List Char → List Char → Bool
  | [], _ => true
  | _ :: _, [] => false
  | a :: as, b :: bs => if a = b then listStarts as bs else false

/-- Python `s.startswith(p)`. -/
def strStartsWith (s p : String) : Bool :=
  listStarts p.data s.data

/-- Worker for `pySplit`: splits on runs of spaces, dropping empty fields. -/
def pySplitAux : List Char → List Char → List String
  | [], acc => if acc.isEmpty then [] else [String.mk acc.reverse]
  | c :: rest, acc =>
    if c = ' ' then
      if acc.isEmpty then pySplitAux rest []
      else String.mk acc.reverse :: pySplitAux rest []
    else pySplitAux rest (c :: acc)

/-- Python `s.split()` (no arguments): fields separated by whitespace runs,
no empty fields.  The commands in this protocol use the space character as
their only whitespace. -/
def pySplit (s : String) : List String :=
  pySplitAux s.data []

def dropSpaces : List Char → List Char
  | [] => []
  | c :: r => if c = ' ' then dropSpaces r else c :: r

def takeTok : List Char → List Char
  | [] => []
  | c :: r => if c = ' ' then [] else c :: takeTok r

def dropTok : List Char → List Char
  | [] => []
  | c :: r => if c = ' ' then c :: r else dropTok r

/-- Python `s.split(maxsplit=1)` (backup_server.py line 163): first
whitespace-run-delimited token, then the remainder of the string verbatim
(with the whitespace run separating them removed). -/
def pySplitMax1 (s : String) : List String :=
  match dropSpaces s.data with
  | [] => []
  | l =>
    let rest := dropSpaces (dropTok l)
    if rest.isEmpty then [String.mk (takeTok l)]
    else [String.mk (takeTok l), String.mk rest]

/-- Worker for `pyToNat`. -/
def digitsVal : List Char → Nat → Option Nat
  | [], acc => some acc
  | c :: r, acc =>
    if c.isDigit then digitsVal r (acc * 10 + (c.toNat - 48)) else none

/-- Python `int(s)` restricted to the non-negative decimal numerals this
protocol transmits; `none` models the `ValueError` raised on anything else. -/
def pyToNat (s : String) : Option Nat :=
  match s.data with
  | [] => none
  | l => digitsVal l 0

def quoteStr : String := String.mk [Char.ofNat 39]

/-- Worker for `pyListStr`. -/
def pyListStrAux : List String → String
  | [] => ""
  | [x] => quoteStr ++ x ++ quoteStr
  | x :: rest => quoteStr ++ x ++ quoteStr ++ ", " ++ pyListStrAux rest

/-- Python `str(files)` for a list of filename strings (Server.py line 73). -/
def pyListStr (names : List String) : String :=
  "[" ++ pyListStrAux names ++ "]"

/-! ### Finite maps as association lists

Both the on-disk store (a flat directory keyed by filename) and the client
cache (a JSON object keyed by filename) are embedded as association lists
with first-match lookup; `insertA` models dict assignment / file creation and
`eraseA` models `del` / `os.remove`. -/

def lookupA {α : Type} (k : String) : List (String × α) → Option α
  | [] => none
  | (k2, v) :: rest => if k2 = k then some v else lookupA k rest

def eraseA {α : Type} (k : String) (l : List (String × α)) : List (String × α) :=
  l.filter (fun p => !(p.1 == k))

def insertA {α : Type} (k : String) (v : α) (l : List (String × α)) : List (String × α) :=
  (k, v) :: eraseA k l

/-- A storage node's file store: filename to file bytes. -/
abbrev Store := List (String × List Nat)

/-- The client cache: filename to (content, capture timestamp)
(client.py lines 40-48). -/
abbrev Cache := List (String × (String × Nat))

/-! ### Storage-node command dispatchers

`handle_client` (Server.py lines 61-225) and `handle_request`
(backup_server.py lines 20-222) each read one request line and run an
`if/elif` chain keyed on `command == "LIST"` / `command.startswith(...)` in
source order.  The embedding maps a file store, the connection's inbound
traffic, and the request line to the ordered list of payloads the handler
sends plus the updated store.  Branch internals follow the source: two-token
commands are unpacked with `_, filename = command.split()` (any other token
count raises `ValueError`, which the enclosing `except` turns into an
`ERROR: <message>` reply, embedded as `Reply.pyError`). -/

inductive Reply where
  | text (s : String)
  | fileBytes (bs : List Nat)
  | pyError
deriving DecidableEq

/-- Inbound connection traffic available to one handler: the chunk sequence
for a sentinel-framed text body, the byte stream for a length-framed body,
and the acknowledgement line a DOWNLOAD peer sends. -/
structure ConnInput where
  textChunks : List (List Nat)
  byteStream : List Nat
  ack : String
deriving DecidableEq

def emptyConn : ConnInput := { textChunks := [], byteStream := [], ack := "" }

/-- The length-framed body commit shared by UPLOAD (Server.py lines 127-138,
backup_server.py lines 119-130) and REPLICATE_BINARY (backup_server.py lines
194-205): receive until `declared` bytes have arrived or the peer closes,
then write whatever was received as the file's content. -/
def uploadCommit (store : Store) (filename : String) (declared : Nat)
    (stream : List Nat) : Store :=
  insertA filename (recvLoop stream declared) store

/-- Result of one primary-node request: the payloads sent to the client, the
updated store, and the `(filename, wire bytes)` the detached replication
thread will push to the backup (`none` when no replication is spawned). -/
structure PrimaryOut where
  sent : List Reply
  store : Store
  repl : Option (String × List Nat)
deriving DecidableEq

/-- The primary dispatcher, Server.py lines 71-201.  Branch order: LIST,
READ, WRITE, UPLOAD, DOWNLOAD, DELETE, else.  For WRITE the replication
payload is the received text itself (line 113); for UPLOAD it is the UTF-8
re-encoding of `file_data.decode('utf-8', errors='ignore')` (line 141).  The
synchronous DELETE-on-backup call (lines 186-195) only logs and does not
change this node's observable reply or store, so it is not represented.  A
text body whose sentinel never arrives leaves the handler stuck in its
receive loop until the 30-second socket timeout fires and
`ERROR: Connection timeout` is sent (lines 203-206). -/
def primaryHandle (store : Store) (conn : ConnInput) (command : String) : PrimaryOut :=
  if command = "LIST" then
    { sent := [Reply.text (pyListStr (store.map Prod.fst))], store := store, repl := none }
  else if strStartsWith command "READ" then
    match pySplit command with
    | [_, filename] =>
      match lookupA filename store with
      | none => { sent := [Reply.text "ERROR: File not found"], store := store, repl := none }
      | some d => { sent := [Reply.fileBytes d], store := store, repl := none }
    | _ => { sent := [Reply.pyError], store := store, repl := none }
  else if strStartsWith command "WRITE" then
    match pySplit command with
    | [_, filename] =>
      match recvUntilSentinel conn.textChunks with
      | none =>
        { sent := [Reply.text "READY", Reply.text "ERROR: Connection timeout"],
          store := store, repl := none }
      | some data =>
        { sent := [Reply.text "READY", Reply.text "Write successful (replicated to backup)"],
          store := insertA filename data store,
          repl := some (filename, data) }
    | _ => { sent := [Reply.pyError], store := store, repl := none }
  else if strStartsWith command "UPLOAD" then
    match pySplit command with
    | [_, filename, szTok] =>
      match pyToNat szTok with
      | none => { sent := [Reply.pyError], store := store, repl := none }
      | some sz =>
        { sent := [Reply.text "READY",
                   Reply.text ("Upload successful: " ++ filename ++ " (" ++ toString sz
                     ++ " bytes) - replicated to backup")],
          store := uploadCommit store filename sz conn.byteStream,
          repl := some (filename, utf8Ignore (recvLoop conn.byteStream sz)) }
    | _ => { sent := [Reply.pyError], store := store, repl := none }
  else if strStartsWith command "DOWNLOAD" then
    match pySplit command with
    | [_, filename] =>
      match lookupA filename store with
      | none => { sent := [Reply.text "ERROR: File not found"], store := store, repl := none }
      | some d =>
        { sent := [Reply.text ("READY " ++ toString d.length)]
                    ++ (if conn.ack = "ACK" then [Reply.fileBytes (sendChunks d)] else []),
          store := store, repl := none }
    | _ => { sent := [Reply.pyError], store := store, repl := none }
  else if strStartsWith command "DELETE" then
    match pySplit command with
    | [_, filename] =>
      match lookupA filename store with
      | none => { sent := [Reply.text "ERROR: File not found"], store := store, repl := none }
      | some _ =>
        { sent := [Reply.text "Delete successful (removed from main and backup)"],
          store := eraseA filename store, repl := none }
    | _ => { sent := [Reply.pyError], store := store, repl := none }
  else
    { sent := [Reply.text "ERROR: Invalid command"], store := store, repl := none }

/-- Result of one backup-node request. -/
structure BackupOut where
  sent : List Reply
  store : Store
deriving DecidableEq

/-- The backup dispatcher, backup_server.py lines 27-211.  Branch order:
LIST, READ, WRITE, APPEND, DELETE, UPLOAD, DOWNLOAD, `REPLICATE ` (note the
trailing space, line 162), REPLICATE_BINARY, else.  The backup sets no socket
timeout, so a text body whose sentinel never arrives blocks the handler
forever after `READY`: the embedding returns the truncated send list
`[READY]` with the store unchanged.  REPLICATE_BINARY indexes
`parts[1]`/`parts[2]` (lines 186-187), so extra tokens are tolerated while a
missing one raises `IndexError` (embedded as `Reply.pyError`, the
`except`-clause reply of lines 213-218). -/
def backupHandle (store : Store) (conn : ConnInput) (command : String) : BackupOut :=
  if command = "LIST" then
    { sent := [Reply.text (pyListStr (store.map Prod.fst))], store := store }
  else if strStartsWith command "READ" then
    match pySplit command with
    | [_, filename] =>
      match lookupA filename store with
      | none => { sent := [Reply.text "ERROR: File not found"], store := store }
      | some d => { sent := [Reply.fileBytes d], store := store }
    | _ => { sent := [Reply.pyError], store := store }
  else if strStartsWith command "WRITE" then
    match pySplit command with
    | [_, filename] =>
      match recvUntilSentinel conn.textChunks with
      | none => { sent := [Reply.text "READY"], store := store }
      | some data =>
        { sent := [Reply.text "READY", Reply.text "Write successful (backup server)"],
          store := insertA filename data store }
    | _ => { sent := [Reply.pyError], store := store }
  else if strStartsWith command "APPEND" then
    match pySplit command with
    | [_, filename] =>
      match recvUntilSentinel conn.textChunks with
      | none => { sent := [Reply.text "READY"], store := store }
      | some data =>
        { sent := [Reply.text "READY", Reply.text "Append successful (backup server)"],
          store := insertA filename ((lookupA filename store).getD [] ++ data) store }
    | _ => { sent := [Reply.pyError], store := store }
  else if strStartsWith command "DELETE" then
    match pySplit command with
    | [_, filename] =>
      match lookupA filename store with
      | none => { sent := [Reply.text "ERROR: File not found"], store := store }
      | some _ =>
        { sent := [Reply.text "Delete successful (backup server)"],
          store := eraseA filename store }
    | _ => { sent := [Reply.pyError], store := store }
  else if strStartsWith command "UPLOAD" then
    match pySplit command with
    | [_, filename, szTok] =>
      match pyToNat szTok with
      | none => { sent := [Reply.pyError], store := store }
      | some sz =>
        { sent := [Reply.text "READY",
                   Reply.text ("Upload successful (backup server): " ++ filename ++ " ("
                     ++ toString sz ++ " bytes)")],
          store := uploadCommit store filename sz conn.byteStream }
    | _ => { sent := [Reply.pyError], store := store }
  else if strStartsWith command "DOWNLOAD" then
    match pySplit command with
    | [_, filename] =>
      match lookupA filename store with
      | none => { sent := [Reply.text "ERROR: File not found"], store := store }
      | some d =>
        { sent := [Reply.text ("READY " ++ toString d.length)]
                    ++ (if conn.ack = "ACK" then [Reply.fileBytes (sendChunks d)] else []),
          store := store }
    | _ => { sent := [Reply.pyError], store := store }
  else if strStartsWith command "REPLICATE " then
    match pySplitMax1 command with
    | [_, filename] =>
      match recvUntilSentinel conn.textChunks with
      | none => { sent := [Reply.text "READY"], store := store }
      | some data =>
        { sent := [Reply.text "READY", Reply.text "Replication successful"],
          store := insertA filename data store }
    | _ => { sent := [Reply.pyError], store := store }
  else if strStartsWith command "REPLICATE_BINARY" then
    match pySplit command with
    | _ :: filename :: szTok :: _ =>
      match pyToNat szTok with
      | none => { sent := [Reply.pyError], store := store }
      | some sz =>
        { sent := [Reply.text "READY", Reply.text "Binary replication successful"],
          store := uploadCommit store filename sz conn.byteStream }
    | _ => { sent := [Reply.pyError], store := store }
  else
    { sent := [Reply.text "ERROR: Invalid command"], store := store }

/-- The byte string a DOWNLOAD client ends up writing locally for a stored
file: the server reports `READY <size>`, streams the file in 4096-byte
chunks (Server.py lines 157-168), and the client's receive loop
(client.py lines 193-200) gathers `size` bytes from that stream. -/
def downloadedBytes (store : Store) (filename : String) : Option (List Nat) :=
  (lookupA filename store).map (fun d => recvLoop (sendChunks d) d.length)

/-! ### Client orchestrator: `send_command` (client.py lines 59-121)

Two deterministic slices of `send_command` are embedded.

`sendCommandSuccess` is the round-trip-completed path (lines 66-93): the
connection succeeds, the server's final payload decodes to `result`, READ
results not starting with `"ERROR"` are cached
(`add_to_cache`, lines 40-48), and mutating commands invalidate the cache
entry (`invalidate_cache`, lines 50-56).  `command.split()[1]` raises
`IndexError` when the command has no second token; that exception is not
caught by either `except` clause, so the embedding returns `none` there.

`sendCommandAllFail` is the path in which every connection attempt to both
nodes raises a transient error (lines 95-121): three failed attempts against
the primary, then for READ a recursive cycle against the backup whose last
attempt consults the cache (`get_from_cache`, lines 32-38); the Python guard
`if cached_content:` makes an empty cached string fall through to the final
`"ERROR: Could not connect to server after multiple attempts"`.  The cache is
returned alongside the result to make explicit that this path never mutates
it. -/

def connFailMsg : String := "ERROR: Could not connect to server after multiple attempts"

def cacheTag (content : String) : String := "[FROM CACHE]\n" ++ content

def isMutatingCmd (cmd : String) : Bool :=
  strStartsWith cmd "WRITE" || strStartsWith cmd "UPLOAD" ||
    strStartsWith cmd "APPEND" || strStartsWith cmd "DELETE"

def sendCommandSuccess (cmd result : String) (now : Nat) (cache : Cache) :
    Option (String × Cache) :=
  let readCaches := strStartsWith cmd "READ" && !(strStartsWith result "ERROR")
  if readCaches || isMutatingCmd cmd then
    match pySplit cmd with
    | _ :: fn :: _ =>
      let c1 := if readCaches then insertA fn (result, now) cache else cache
      let c2 := if isMutatingCmd cmd then eraseA fn c1 else c1
      some (result, c2)
    | _ => none
  else
    some (result, cache)

def sendCommandAllFail (cmd : String) (cache : Cache) : Option (String × Cache) :=
  if strStartsWith cmd "READ" then
    match pySplit cmd with
    | _ :: fn :: _ =>
      match lookupA fn cache with
      | some (content, _) =>
        if content = "" then some (connFailMsg, cache)
        else some (cacheTag content, cache)
      | none => some (connFailMsg, cache)
    | _ => none
  else
    some (connFailMsg, cache)

/-! ### Helper lemmas -/

/-- The length-framed receive loop gathers exactly the first `remaining`
bytes the stream delivers (all of the stream when the peer closes early). -/
theorem recvRounds_eq_take :
    ∀ (fuel remaining : Nat) (stream : List Nat), remaining ≤ fuel →
      recvRounds fuel stream remaining = stream.take remaining := by
  intro fuel
  induction fuel with
  | zero =>
    intro remaining stream h
    have h0 : remaining = 0 := Nat.le_zero.mp h
    subst h0
    rfl
  | succ f ih =>
    intro remaining stream h
    by_cases h0 : remaining = 0
    · subst h0; simp [recvRounds]
    · by_cases hs : stream = []
      · subst hs
        simp [recvRounds, h0]
      · have htne : stream.take (min 4096 remaining) ≠ [] := by
          rw [Ne, List.take_eq_nil_iff]
          push_neg
          exact ⟨by omega, hs⟩
        have hne : (stream.take (min 4096 remaining)).isEmpty = false := by
          rcases List.exists_cons_of_ne_nil htne with ⟨a, t, heq⟩
          rw [heq]
          rfl
        have hlen1 : 0 < (stream.take (min 4096 remaining)).length :=
          List.length_pos.mpr htne
        simp only [recvRounds, if_neg h0, hne, Bool.false_eq_true, if_false]
        rw [ih _ _ (by omega)]
        by_cases hk : min 4096 remaining ≤ stream.length
        · have hcl : (stream.take (min 4096 remaining)).length = min 4096 remaining := by
            simp only [List.length_take]
            omega
          rw [hcl]
          conv_rhs => rw [show remaining = min 4096 remaining + (remaining - min 4096 remaining) from by omega, List.take_add]
        · have h1 : stream.take (min 4096 remaining) = stream :=
            List.take_of_length_le (by omega)
          have h2 : stream.drop (min 4096 remaining) = [] :=
            List.drop_eq_nil_of_le (by omega)
          rw [h1, h2, List.take_nil, List.append_nil,
            List.take_of_length_le (by omega)]

theorem recvLoop_eq_take (stream : List Nat) (total : Nat) :
    recvLoop stream total = stream.take total :=
  recvRounds_eq_take total total stream (Nat.le_refl total)

/-- The DOWNLOAD chunking loop puts exactly the file's bytes on the wire. -/
theorem sendRounds_id :
    ∀ (fuel : Nat) (data : List Nat), data.length ≤ fuel → sendRounds fuel data = data := by
  intro fuel
  induction fuel with
  | zero =>
    intro data h
    have h0 : data = [] := List.eq_nil_of_length_eq_zero (Nat.le_zero.mp h)
    subst h0
    rfl
  | succ f ih =>
    intro data h
    match data with
    | [] => rfl
    | d :: ds =>
      have h2 : ((d :: ds).drop 4096).length ≤ f := by
        simp only [List.length_drop, List.length_cons] at *
        omega
      calc sendRounds (f + 1) (d :: ds)
          = (d :: ds).take 4096 ++ sendRounds f ((d :: ds).drop 4096) := by
            rw [sendRounds]
            simp
        _ = (d :: ds).take 4096 ++ (d :: ds).drop 4096 := by rw [ih _ h2]
        _ = d :: ds := List.take_append_drop _ _

theorem sendChunks_id (data : List Nat) : sendChunks data = data :=
  sendRounds_id data.length data (Nat.le_refl _)

theorem lookupA_insertA {α : Type} (k : String) (v : α) (l : List (String × α)) :
    lookupA k (insertA k v l) = some v := by
  simp [insertA, lookupA]

theorem lookupA_eraseA {α : Type} (k : String) (l : List (String × α)) :
    lookupA k (eraseA k l) = none := by
  induction l with
  | nil => rfl
  | cons p t ih =>
    obtain ⟨k2, v⟩ := p
    by_cases h : k2 = k
    · simp only [eraseA, List.filter_cons] at *
      simp only [h, beq_self_eq_true, Bool.not_true, Bool.false_eq_true, if_false]
      exact ih
    · have hb : (k2 == k) = false := by simp [h]
      simp only [eraseA, List.filter_cons] at *
      simp only [hb, Bool.not_false, if_true, lookupA, if_neg h]
      exact ih

/-- Two initial segments of the same list are comparable. -/
theorem listStarts_total :
    ∀ (l p q : List Char), listStarts p l = true → listStarts q l = true →
      listStarts p q = true ∨ listStarts q p = true := by
  intro l
  induction l with
  | nil =>
    intro p q hp hq
    cases p with
    | nil => left; rfl
    | cons a as => simp [listStarts] at hp
  | cons b bs ih =>
    intro p q hp hq
    cases p with
    | nil => left; rfl
    | cons a as =>
      cases q with
      | nil => right; rfl
      | cons c cs =>
        rw [listStarts] at hp hq
        split at hp
        case isTrue hab =>
          split at hq
          case isTrue hcb =>
            subst hab
            subst hcb
            rcases ih as cs hp hq with hh | hh
            · left; rw [listStarts]; simp [hh]
            · right; rw [listStarts]; simp [hh]
          case isFalse hcb => simp at hq
        case isFalse hab => simp at hp

/-- If `s` starts with `p`, and `p`,`q` are incomparable literals, then `s`
does not start with `q`; used to walk the `elif` chains symbolically. -/
theorem strStartsWith_excl (s p q : String)
    (hp : strStartsWith s p = true)
    (h1 : listStarts p.data q.data = false)
    (h2 : listStarts q.data p.data = false) :
    strStartsWith s q = false := by
  cases hsw : strStartsWith s q
  · rfl
  · rcases listStarts_total s.data p.data q.data hp hsw with hh | hh
    · rw [h1] at hh; exact absurd hh (by simp)
    · rw [h2] at hh; exact absurd hh (by simp)

theorem listStarts_append : ∀ (p t : List Char), listStarts p (p ++ t) = true := by
  intro p t
  induction p with
  | nil => rfl
  | cons a as ih => simp [listStarts, ih]

/-- A sentinel-framed body whose payload is not itself the sentinel is
reassembled exactly by the sentinel-terminated receive loop. -/
theorem recvUntilSentinel_framed (payload : List Nat) (h : payload ≠ sentinelBytes) :
    recvUntilSentinel (sentinelFramedChunks payload) = some payload := by
  by_cases hp : payload = []
  · subst hp
    simp [sentinelFramedChunks, recvUntilSentinel]
  · simp [sentinelFramedChunks, hp, recvUntilSentinel, h]

/-! ### Claim theorems -/

/-- C1: the claim says two concurrent first-touches of a filename can never
obtain two distinct lock objects from `get_lock`.  The unsynchronized
check-then-create refutes this: under the interleaving in which both threads
pass the membership test before either inserts, and thread A reads the dict
back before thread B inserts, thread A returns lock object 0 and thread B
returns lock object 1 — two distinct lock objects for the same filename, the
second silently replacing the first in the table. -/
theorem get_lock_race_two_objects :
    (raceRun raceSched).retA = some 0 ∧ (raceRun raceSched).retB = some 1 ∧
      (raceRun raceSched).retA ≠ (raceRun raceSched).retB := by
  decide

/-- C2 counterexample: in both the WRITE and the UPLOAD handler of the
primary node, the body-receive phase happens while the per-filename lock is
not held (the receive loop sits between `get_lock` and `with lock:`), so the
claim that the handler never receives body bytes without holding the lock is
false on the code. -/
theorem recv_unlocked_counterexample :
    recvLockedOK writeTrace false = false ∧ recvLockedOK uploadTrace false = false := by
  decide

/-- C2 amended: the lock object is looked up before the body is received, but
it is held only around the file write; the commit itself always executes
under the lock in both the WRITE and the UPLOAD handler. -/
theorem commit_under_lock :
    writeLockedOK writeTrace false = true ∧ writeLockedOK uploadTrace false = true ∧
      lookupBeforeRecv writeTrace false = true ∧ lookupBeforeRecv uploadTrace false = true := by
  decide

/-- C3 counterexample: an UPLOAD declaring 10 bytes whose peer closes after
delivering only `[1, 2, 3]` still commits the 3-byte partial file and still
sends the success reply quoting the declared size — the operation is not
treated as failed and a partial file is left committed. -/
theorem partial_upload_committed_counterexample :
    (primaryHandle [] { textChunks := [], byteStream := [1, 2, 3], ack := "" }
        "UPLOAD f.bin 10").sent =
      [Reply.text "READY",
       Reply.text "Upload successful: f.bin (10 bytes) - replicated to backup"] ∧
    lookupA "f.bin"
      (primaryHandle [] { textChunks := [], byteStream := [1, 2, 3], ack := "" }
        "UPLOAD f.bin 10").store = some [1, 2, 3] := by
  decide

/-- C3 amended: when the peer closes mid-stream during a length-framed body
transfer (UPLOAD, and the backup's REPLICATE_BINARY, which commits through
the same receive-then-write logic), the handler commits exactly the bytes
received so far as the file's content; the commit is not withheld until the
full declared count has arrived. -/
theorem upload_commits_received_bytes (store : Store) (fn : String) (declared : Nat)
    (stream : List Nat) (h : stream.length ≤ declared) :
    lookupA fn (uploadCommit store fn declared stream) = some stream := by
  rw [uploadCommit, lookupA_insertA, recvLoop_eq_take, List.take_of_length_le h]

theorem upload_commits_received_bytes_witness :
    ([1, 2, 3] : List Nat).length ≤ 10 ∧
      lookupA "f.bin" (uploadCommit [] "f.bin" 10 [1, 2, 3]) = some [1, 2, 3] :=
  ⟨by decide, upload_commits_received_bytes [] "f.bin" 10 [1, 2, 3] (by decide)⟩

/-- C7: uploading any byte sequence (including the empty one and sequences
longer than one 4096-byte chunk) under a filename and then downloading that
filename through the chunked download path yields the identical byte
sequence. -/
theorem upload_download_roundtrip (store : Store) (fn : String) (data : List Nat) :
    downloadedBytes (uploadCommit store fn data.length data) fn = some data := by
  have hinner : recvLoop data data.length = data := by
    rw [recvLoop_eq_take, List.take_length]
  rw [downloadedBytes, uploadCommit, hinner, lookupA_insertA, Option.map_some',
    sendChunks_id, hinner]

/-- C8: the claim says both storage nodes accept APPEND.  The backup does
(READY, sentinel-terminated body, append, confirmation), but the primary's
dispatcher has no APPEND branch and replies `ERROR: Invalid command` — even
though the client front end offers APPEND and streams its body to the
primary. -/
theorem append_primary_rejected :
    primaryHandle [] emptyConn "APPEND f.txt" =
      { sent := [Reply.text "ERROR: Invalid command"], store := [], repl := none } ∧
    backupHandle [("f.txt", strBytes "abc")]
        { textChunks := [strBytes "XYZ", sentinelBytes], byteStream := [], ack := "" }
        "APPEND f.txt" =
      { sent := [Reply.text "READY", Reply.text "Append successful (backup server)"],
        store := [("f.txt", strBytes "abcXYZ")] } := by
  decide

/-- C9 counterexample: the unknown verb `READX` shares the prefix `READ` with
a supported verb, so the dispatcher routes `READX f.txt` into the READ
branch (here answering `ERROR: File not found` on an empty store) instead of
answering `ERROR: Invalid command` as the claim requires. -/
theorem prefix_verb_dispatch_counterexample :
    (primaryHandle [] emptyConn "READX f.txt").sent = [Reply.text "ERROR: File not found"] ∧
      (primaryHandle [] emptyConn "READX f.txt").sent ≠ [Reply.text "ERROR: Invalid command"] := by
  decide

/-- C4 counterexample: upload the single byte 0xFF (not valid UTF-8) to the
primary.  The primary commits `[255]`, but the replication thread is handed
`file_data.decode('utf-8', errors='ignore')`, which drops the byte, and it
delivers it with the text REPLICATE verb (never REPLICATE_BINARY).  The
backup therefore commits the empty file, and reading the file from the
backup returns content different from the primary's copy even though the
replication sender reported success. -/
theorem binary_replication_diverges_counterexample :
    (primaryHandle [] { textChunks := [], byteStream := [255], ack := "" }
        "UPLOAD f.bin 1").store = [("f.bin", [255])] ∧
    (primaryHandle [] { textChunks := [], byteStream := [255], ack := "" }
        "UPLOAD f.bin 1").repl = some ("f.bin", []) ∧
    strStartsWith (replicateRequestLine "f.bin") "REPLICATE_BINARY" = false ∧
    (backupHandle [] { textChunks := sentinelFramedChunks [], byteStream := [], ack := "" }
        (replicateRequestLine "f.bin")).store = [("f.bin", [])] ∧
    (backupHandle [("f.bin", [])] emptyConn "READ f.bin").sent = [Reply.fileBytes []] ∧
    ([] : List Nat) ≠ [255] := by
  decide

/-- C9 amended: a request line that does not begin with any supported verb
prefix (and is not exactly `LIST`) is answered `ERROR: Invalid command` by
both storage nodes with the store unchanged; but routing is by
`str.startswith`, so an unknown verb that extends a supported verb (such as
`READX`) is dispatched into that verb's branch instead. -/
theorem unknown_verb_invalid (cmd : String) (store : Store) (conn : ConnInput)
    (hL : cmd ≠ "LIST")
    (hR : strStartsWith cmd "READ" = false)
    (hW : strStartsWith cmd "WRITE" = false)
    (hU : strStartsWith cmd "UPLOAD" = false)
    (hDo : strStartsWith cmd "DOWNLOAD" = false)
    (hDe : strStartsWith cmd "DELETE" = false)
    (hA : strStartsWith cmd "APPEND" = false)
    (hRp : strStartsWith cmd "REPLICATE " = false)
    (hRb : strStartsWith cmd "REPLICATE_BINARY" = false) :
    primaryHandle store conn cmd =
      { sent := [Reply.text "ERROR: Invalid command"], store := store, repl := none } ∧
    backupHandle store conn cmd =
      { sent := [Reply.text "ERROR: Invalid command"], store := store } := by
  constructor
  · simp only [primaryHandle, if_neg hL, hR, hW, hU, hDo, hDe,
      Bool.false_eq_true, if_false]
  · simp only [backupHandle, if_neg hL, hR, hW, hA, hDe, hU, hDo, hRp, hRb,
      Bool.false_eq_true, if_false]

theorem unknown_verb_invalid_witness :
    primaryHandle [] emptyConn "PING x" =
      { sent := [Reply.text "ERROR: Invalid command"], store := [], repl := none } ∧
    backupHandle [] emptyConn "PING x" =
      { sent := [Reply.text "ERROR: Invalid command"], store := [] } :=
  unknown_verb_invalid "PING x" [] emptyConn (by decide) (by decide) (by decide)
    (by decide) (by decide) (by decide) (by decide) (by decide) (by decide)

/-- C4 amended: the replication sender always uses the text REPLICATE verb
(REPLICATE_BINARY is never emitted), and the payload it frames is the text
handed to it — the committed content itself for WRITE, the UTF-8
errors-ignore re-encoding for UPLOAD.  Consequently the backup's copy equals
the primary's exactly when that payload equals the committed bytes (any
sentinel-distinct text content): the backup's REPLICATE ingress commits the
framed payload verbatim, and the primary's WRITE handler both commits and
hands to replication the same bytes. -/
theorem replication_text_path :
    (∀ fn : String, strStartsWith (replicateRequestLine fn) "REPLICATE " = true) ∧
    (∀ (cmd fn : String) (payload : List Nat) (bStore : Store),
      strStartsWith cmd "REPLICATE " = true →
      pySplitMax1 cmd = ["REPLICATE", fn] →
      payload ≠ sentinelBytes →
      backupHandle bStore { textChunks := sentinelFramedChunks payload, byteStream := [], ack := "" } cmd =
        { sent := [Reply.text "READY", Reply.text "Replication successful"],
          store := insertA fn payload bStore }) ∧
    (∀ (cmd fn : String) (payload : List Nat) (store : Store),
      strStartsWith cmd "WRITE" = true →
      pySplit cmd = ["WRITE", fn] →
      payload ≠ sentinelBytes →
      primaryHandle store { textChunks := sentinelFramedChunks payload, byteStream := [], ack := "" } cmd =
        { sent := [Reply.text "READY", Reply.text "Write successful (replicated to backup)"],
          store := insertA fn payload store,
          repl := some (fn, payload) }) := by
  refine ⟨?_, ?_, ?_⟩
  · intro fn
    rw [replicateRequestLine, strStartsWith, String.data_append]
    exact listStarts_append _ _
  · intro cmd fn payload bStore hRp hsplit hpay
    have hL : cmd ≠ "LIST" := by
      intro heq; rw [heq] at hRp; exact absurd hRp (by decide)
    have hR : strStartsWith cmd "READ" = false :=
      strStartsWith_excl cmd "REPLICATE " "READ" hRp (by decide) (by decide)
    have hW : strStartsWith cmd "WRITE" = false :=
      strStartsWith_excl cmd "REPLICATE " "WRITE" hRp (by decide) (by decide)
    have hA : strStartsWith cmd "APPEND" = false :=
      strStartsWith_excl cmd "REPLICATE " "APPEND" hRp (by decide) (by decide)
    have hDe : strStartsWith cmd "DELETE" = false :=
      strStartsWith_excl cmd "REPLICATE " "DELETE" hRp (by decide) (by decide)
    have hU : strStartsWith cmd "UPLOAD" = false :=
      strStartsWith_excl cmd "REPLICATE " "UPLOAD" hRp (by decide) (by decide)
    have hDo : strStartsWith cmd "DOWNLOAD" = false :=
      strStartsWith_excl cmd "REPLICATE " "DOWNLOAD" hRp (by decide) (by decide)
    simp only [backupHandle, if_neg hL, hR, hW, hA, hDe, hU, hDo,
      Bool.false_eq_true, if_false, hRp, if_true, hsplit,
      recvUntilSentinel_framed payload hpay]
  · intro cmd fn payload store hw hsplit hpay
    have hL : cmd ≠ "LIST" := by
      intro heq; rw [heq] at hw; exact absurd hw (by decide)
    have hR : strStartsWith cmd "READ" = false :=
      strStartsWith_excl cmd "WRITE" "READ" hw (by decide) (by decide)
    simp only [primaryHandle, if_neg hL, hR, Bool.false_eq_true, if_false,
      hw, if_true, hsplit, recvUntilSentinel_framed payload hpay]

theorem replication_text_path_witness :
    strStartsWith (replicateRequestLine "f.txt") "REPLICATE " = true ∧
    backupHandle []
        { textChunks := sentinelFramedChunks (strBytes "hello"), byteStream := [], ack := "" }
        "REPLICATE f.txt" =
      { sent := [Reply.text "READY", Reply.text "Replication successful"],
        store := insertA "f.txt" (strBytes "hello") [] } ∧
    primaryHandle []
        { textChunks := sentinelFramedChunks (strBytes "hello"), byteStream := [], ack := "" }
        "WRITE f.txt" =
      { sent := [Reply.text "READY", Reply.text "Write successful (replicated to backup)"],
        store := insertA "f.txt" (strBytes "hello") [],
        repl := some ("f.txt", strBytes "hello") } :=
  ⟨replication_text_path.1 "f.txt",
   replication_text_path.2.1 "REPLICATE f.txt" "f.txt" (strBytes "hello") []
     (by decide) (by decide) (by decide),
   replication_text_path.2.2 "WRITE f.txt" "f.txt" (strBytes "hello") []
     (by decide) (by decide) (by decide)⟩

/-- C5 counterexample: a WRITE for which every connection attempt fails
returns the final connection error with the cache untouched — the stale
entry for the filename survives, contradicting the claim that mutating
commands invalidate the cache entry regardless of success. -/
theorem failed_write_keeps_cache_counterexample :
    sendCommandAllFail "WRITE f.txt" [("f.txt", ("old", 0))] =
      some (connFailMsg, [("f.txt", ("old", 0))]) ∧
    lookupA "f.txt" [("f.txt", ("old", 0))] = some ("old", 0) := by
  decide

/-- C5 amended: a mutating command invalidates the cache entry for its
filename only when the round trip to the server completes; when every
connection attempt fails, `send_command` returns the connection error and
leaves the cache unchanged. -/
theorem invalidate_on_success_only (cmd v fn result : String) (rest : List String)
    (now : Nat) (cache : Cache)
    (hmut : isMutatingCmd cmd = true)
    (hR : strStartsWith cmd "READ" = false)
    (hsplit : pySplit cmd = v :: fn :: rest) :
    (sendCommandSuccess cmd result now cache = some (result, eraseA fn cache) ∧
      lookupA fn (eraseA fn cache) = none) ∧
    sendCommandAllFail cmd cache = some (connFailMsg, cache) := by
  refine ⟨⟨?_, lookupA_eraseA fn cache⟩, ?_⟩
  · simp only [sendCommandSuccess, hR, Bool.false_and, Bool.false_or, hmut,
      if_true, hsplit, Bool.false_eq_true, if_false]
  · simp only [sendCommandAllFail, hR, Bool.false_eq_true, if_false]

theorem invalidate_on_success_only_witness :
    (sendCommandSuccess "WRITE f.txt" "ok" 0 [("f.txt", ("old", 0))] =
        some ("ok", eraseA "f.txt" [("f.txt", ("old", 0))]) ∧
      lookupA "f.txt" (eraseA "f.txt" [("f.txt", ("old", 0))]) = none) ∧
    sendCommandAllFail "WRITE f.txt" [("f.txt", ("old", 0))] =
      some (connFailMsg, [("f.txt", ("old", 0))]) :=
  invalidate_on_success_only "WRITE f.txt" "WRITE" "f.txt" "ok" [] 0
    [("f.txt", ("old", 0))] (by decide) (by decide) (by decide)

/-- C6 counterexample: filename `f.txt` was previously read successfully with
empty content and is cached; with both nodes unreachable, the guard
`if cached_content:` treats the empty string as absent and `send_command`
returns the definitive connection error instead of the tagged cached
content the claim promises. -/
theorem empty_cache_content_counterexample :
    sendCommandAllFail "READ f.txt" [("f.txt", ("", 5))] =
      some (connFailMsg, [("f.txt", ("", 5))]) ∧
    connFailMsg ≠ cacheTag "" := by
  decide

/-- C6 amended: with both nodes unreachable, a READ of a filename cached with
non-empty content returns that content prefixed with the `[FROM CACHE]` tag;
a filename that was never cached (or cached with empty content) gets the
definitive connection-failure error. -/
theorem cache_fallback_nonempty (cmd fn content : String) (ts : Nat) (cache : Cache)
    (hR : strStartsWith cmd "READ" = true)
    (hsplit : pySplit cmd = ["READ", fn]) :
    (lookupA fn cache = some (content, ts) → content ≠ "" →
      sendCommandAllFail cmd cache = some (cacheTag content, cache)) ∧
    (lookupA fn cache = none →
      sendCommandAllFail cmd cache = some (connFailMsg, cache)) := by
  constructor
  · intro hlook hne
    simp only [sendCommandAllFail, hR, if_true, hsplit, hlook, if_neg hne]
  · intro hlook
    simp only [sendCommandAllFail, hR, if_true, hsplit, hlook]

theorem cache_fallback_nonempty_witness :
    sendCommandAllFail "READ f.txt" [("f.txt", ("data", 7))] =
      some (cacheTag "data", [("f.txt", ("data", 7))]) :=
  (cache_fallback_nonempty "READ f.txt" "f.txt" "data" 7 [("f.txt", ("data", 7))]
    (by decide) (by decide)).1 (by decide) (by decide)

/-- C10: `send_command` classifies a READ response as an error exactly when
the response string begins with `ERROR`: the result is always returned to
the caller, it is added to the cache precisely when it does not begin with
`ERROR`, and a response beginning with `ERROR` leaves the cache unchanged —
so a file whose content begins with `ERROR` is never cached and the later
all-nodes-down fallback for it yields the connection error, never that
content. -/
theorem read_error_classification (cmd fn result : String) (now : Nat) (cache : Cache)
    (hR : strStartsWith cmd "READ" = true)
    (hsplit : pySplit cmd = ["READ", fn]) :
    sendCommandSuccess cmd result now cache =
      some (result,
        if strStartsWith result "ERROR" = true then cache
        else insertA fn (result, now) cache) ∧
    (strStartsWith result "ERROR" = true → lookupA fn cache = none →
      sendCommandAllFail cmd cache = some (connFailMsg, cache)) := by
  have hW : strStartsWith cmd "WRITE" = false :=
    strStartsWith_excl cmd "READ" "WRITE" hR (by decide) (by decide)
  have hU : strStartsWith cmd "UPLOAD" = false :=
    strStartsWith_excl cmd "READ" "UPLOAD" hR (by decide) (by decide)
  have hA : strStartsWith cmd "APPEND" = false :=
    strStartsWith_excl cmd "READ" "APPEND" hR (by decide) (by decide)
  have hD : strStartsWith cmd "DELETE" = false :=
    strStartsWith_excl cmd "READ" "DELETE" hR (by decide) (by decide)
  have hmut : isMutatingCmd cmd = false := by
    simp [isMutatingCmd, hW, hU, hA, hD]
  constructor
  · cases hres : strStartsWith result "ERROR"
    · simp [sendCommandSuccess, hR, hres, hmut, hsplit]
    · simp [sendCommandSuccess, hR, hres, hmut, hsplit]
  · intro hres hlook
    simp only [sendCommandAllFail, hR, if_true, hsplit, hlook]

theorem read_error_classification_witness :
    sendCommandSuccess "READ f.txt" "ERRORLOG entry" 3 [] =
      some ("ERRORLOG entry",
        if strStartsWith "ERRORLOG entry" "ERROR" = true then ([] : Cache)
        else insertA "f.txt" ("ERRORLOG entry", 3) []) ∧
    sendCommandAllFail "READ f.txt" [] = some (connFailMsg, []) :=
  ⟨(read_error_classification "READ f.txt" "f.txt" "ERRORLOG entry" 3 []
      (by decide) (by decide)).1,
   (read_error_classification "READ f.txt" "f.txt" "ERRORLOG entry" 3 []
      (by decide) (by decide)).2 (by decide) (by decide)⟩
